import Mathlib

/-!
Verification of the AIOps diagnostic-agent orchestration engine.

Shallow embedding of the repository's diagnostic loop and capability
adapters:
* `src/aiops_agent_monitor/state.py` — `AgentState`, `add_messages`;
* `src/aiops_agent_monitor/main.py` — `llm_agent_node`,
  `finalize_diagnosis_node`, `route_agent_decide`, the compiled
  `diagnostic_workflow` (entry `llm_agent_node`, conditional edges to
  `tool_executor` / `finalize_diagnosis`, edge `tool_executor →
  llm_agent_node`, finish point `finalize_diagnosis`), and the
  `/diagnose_alert` handler `diagnose_alert`;
* `src/aiops_agent_monitor/tools/mlops_tools.py` — `PrometheusQuery`,
  `LokiLogSearch`, `GrafanaDashboardLink`;
* `src/tool_services/grafana_tool/tool.py` — `GrafanaDashboardLinkTool`.

External effects are parameters: the language-model backend is an oracle
giving the reply of each invocation, network calls are an oracle giving
the outcome of the single HTTP request an adapter performs, and wall-clock
time is an explicit argument.  Python exceptions are `Except` values; a
`try/except` block is a `match` on the body's `Except` result.
-/

/-- One entry of a LangChain `tool_calls` list: a requested capability
name with its arguments (argument values abstracted as text). -/
structure ToolCall where
  name : String
  args : List (String × String)
deriving DecidableEq

/-- LangChain message kinds used by the agent: `SystemMessage`,
`HumanMessage`, `AIMessage` (with its `tool_calls` list) and the
`ToolMessage` a `ToolNode` appends for a tool result. -/
inductive Message where
  | system (content : String)
  | human (content : String)
  | ai (content : String) (tool_calls : List ToolCall)
  | tool (content : String)
deriving DecidableEq

/-- `content` attribute of any message. -/
def contentOf : Message → String
  | .system c => c
  | .human c => c
  | .ai c _ => c
  | .tool c => c

/-- `state.py`: reducer for the `messages` key —
`add_messages(left, right) = left + right`. -/
def add_messages (left right : List Message) : List Message :=
  left ++ right

/-- `state.py` `AgentState` (the keys the diagnostic workflow reads or
writes).  Keys read through `dict.get` with a default are `Option`-valued
so a missing key is representable. -/
structure AgentState where
  messages : List Message
  alert_info : String
  alert_severity : String
  prometheus_data : Option String
  loki_logs : Option String
  grafana_link : Option String
  final_result : Option String
deriving DecidableEq

/-- `main.py` `llm_agent_node`: system instruction prepended to the
conversation by the prompt template on every invocation. -/
def system_message_content : String :=
  "You are an expert MLOps Diagnostic Agent. Your goal is to analyze alerts, " ++
  "gather relevant data using your tools, and provide clear diagnoses with proposed solutions. " ++
  "Be concise and always use the tools provided to gather information before making a diagnosis.\n" ++
  "**IMPORTANT:** You can only call ONE tool at a time. If you need to gather multiple pieces of information, call one tool, wait for the observation, then decide on the next tool call. Do NOT try to call multiple tools in a single response."

/-- `main.py` `llm_agent_node`: invokes the chain (system prompt followed
by the accumulated messages) and returns `{"messages": [result]}`, which
the `add_messages` reducer appends to the state.  `llm` is the backend
oracle: reply of the `idx`-th reasoning invocation given the prompt
messages. -/
def llm_agent_node (llm : Nat → List Message → Message) (idx : Nat)
    (st : AgentState) : AgentState :=
  let result := llm idx (Message.system system_message_content :: st.messages)
  { st with messages := add_messages st.messages [result] }

/-- `langgraph.prebuilt.ToolNode` on the last message's `tool_calls`:
runs each requested tool and appends one `ToolMessage` per call, through
the `add_messages` reducer.  `runTool` is the adapter-outcome oracle. -/
def tool_executor (runTool : ToolCall → String) (st : AgentState) : AgentState :=
  match st.messages.getLast? with
  | some (.ai _ tcs) =>
      { st with messages :=
          add_messages st.messages (tcs.map (fun tc => Message.tool (runTool tc))) }
  | _ => st

/-- `main.py` `finalize_diagnosis_node`: the `HumanMessage` of the
diagnosis prompt, built from `alert_info` and the `dict.get` defaults. -/
def finalizePrompt (st : AgentState) : String :=
  "Alert: " ++ st.alert_info ++ "\n" ++
  "Prometheus data: " ++ st.prometheus_data.getD "No data." ++ "\n" ++
  "Loki logs: " ++ st.loki_logs.getD "No logs." ++ "\n" ++
  "Grafana Link: " ++ st.grafana_link.getD "No link generated." ++ "\n" ++
  "Based on this, what is your diagnosis and proposed solution?"

/-- `main.py` `finalize_diagnosis_node`: unconditionally invokes the
reasoning backend on the diagnosis prompt (the `Nat` component counts the
backend invocations the node performed — the code calls
`llm_for_deployed_agent.invoke` exactly once, with no guard on an already
set `final_result` and no exception handler), then returns
`{"messages": state["messages"] + [AIMessage(final_msg)],
"final_result": final_msg}`; the `messages` value goes through the
`add_messages` reducer.  A backend exception propagates. -/
def finalize_diagnosis_node (backend : String → Except String String)
    (st : AgentState) : Except String (AgentState × Nat) :=
  match backend (finalizePrompt st) with
  | .error e => .error e
  | .ok final_msg =>
      .ok ({ st with
              messages := add_messages st.messages
                (st.messages ++ [Message.ai final_msg []]),
              final_result := some final_msg }, 1)

/-- `main.py` `route_agent_decide`: `"tool_executor"` when the message
list is non-empty, its last element is an `AIMessage` and that message's
`tool_calls` list is non-empty; `"finalize_diagnosis"` otherwise. -/
def route_agent_decide (messages : List Message) : String :=
  match messages.getLast? with
  | some (.ai _ tcs) =>
      if tcs.isEmpty then "finalize_diagnosis" else "tool_executor"
  | _ => "finalize_diagnosis"

/-- The compiled `diagnostic_workflow`, run from the `llm_agent_node`
entry point: reasoning step, then the conditional edge chosen by
`route_agent_decide`; `tool_executor` loops back to `llm_agent_node`,
`finalize_diagnosis` is the finish point.  `turns` counts reasoning-step
invocations so far (it also indexes the backend oracle); on success the
pair holds the final state and the reasoning count at Finalizer entry.
`fuel` is the LangGraph recursion limit: when it runs out the framework
raises `GraphRecursionError` instead of producing a state. -/
def runFromAgent (llm : Nat → List Message → Message)
    (runTool : ToolCall → String) (fb : String → Except String String) :
    Nat → AgentState → Nat → Except String (AgentState × Nat)
  | 0, _, _ => .error "GraphRecursionError"
  | fuel + 1, st, turns =>
      let st1 := llm_agent_node llm turns st
      if route_agent_decide st1.messages = "tool_executor" then
        runFromAgent llm runTool fb fuel (tool_executor runTool st1) (turns + 1)
      else
        match finalize_diagnosis_node fb st1 with
        | .error e => .error e
        | .ok (st2, _) => .ok (st2, turns + 1)

/-- `diagnostic_agent_instance.invoke(initial_state)`. -/
def runDiagnostic (llm : Nat → List Message → Message)
    (runTool : ToolCall → String) (fb : String → Except String String)
    (fuel : Nat) (st : AgentState) : Except String (AgentState × Nat) :=
  runFromAgent llm runTool fb fuel st 0

/-- One element of the payload's `"alerts"` list: its `"labels"` and
`"annotations"` sub-dictionaries, each possibly absent (`dict.get` with a
`{}` default). -/
structure Alert where
  labels : Option (List (String × String))
  annots : Option (List (String × String))
deriving DecidableEq

/-- The `/diagnose_alert` request body as the handler reads it: the
`"alerts"` key, possibly absent (`dict.get` with default `[{}]`). -/
structure AlertPayload where
  alerts : Option (List Alert)
deriving DecidableEq

/-- `dict.get(key, default)` on a string-keyed dictionary. -/
def dictGet (d : List (String × String)) (key dflt : String) : String :=
  (d.lookup key).getD dflt

/-- `alert_payload.get("alerts", [{}])[0]`: indexing `[0]` raises
`IndexError` when the `"alerts"` key holds an empty list. -/
def getFirstAlert (p : AlertPayload) : Except String Alert :=
  match p.alerts.getD [{ labels := none, annots := none }] with
  | [] => .error "IndexError: list index out of range"
  | a :: _ => .ok a

/-- `.get("labels", {}).get("alertname", "Unknown Alert")`. -/
def alertNameOf (a : Alert) : String :=
  dictGet (a.labels.getD []) "alertname" "Unknown Alert"

/-- `.get("labels", {}).get("service", "Unknown Service")`. -/
def alertServiceOf (a : Alert) : String :=
  dictGet (a.labels.getD []) "service" "Unknown Service"

/-- `.get("annotations", {}).get("summary", "No summary provided.")`. -/
def alertSummaryOf (a : Alert) : String :=
  dictGet (a.annots.getD []) "summary" "No summary provided."

/-- `main.py`: `alert_info_for_agent = f"Alert {name} for service
{service}: {summary}"` (with single quotes around name and service). -/
def mkAlertInfo (a : Alert) : String :=
  "Alert \x27" ++ alertNameOf a ++ "\x27 for service \x27" ++
    alertServiceOf a ++ "\x27: " ++ alertSummaryOf a

/-- `main.py` `diagnose_alert`: the fresh `AgentState` built per request
(the keys the diagnostic workflow uses; the handler sets the data fields
to the empty string and `final_result` to `None`). -/
def initialState (alert_info_for_agent : String) : AgentState :=
  { messages := [Message.human ("Diagnose this alert: " ++ alert_info_for_agent)],
    alert_info := alert_info_for_agent,
    alert_severity := "unknown",
    prometheus_data := some "",
    loki_logs := some "",
    grafana_link := some "",
    final_result := none }

/-- `final_state["messages"][-1].content if final_state["messages"] else
"No final message from agent."`. -/
def lastMessageContent (msgs : List Message) : String :=
  match msgs.getLast? with
  | some m => contentOf m
  | none => "No final message from agent."

/-- Outcome of one `/diagnose_alert` request as seen by the caller:
a 200 body, an `HTTPException` raised by the handler, or an exception
that escaped the handler (which FastAPI converts to a generic
500 Internal Server Error). -/
inductive HttpOutcome where
  | success (agent_diagnosis : String)
  | httpError (code : Nat) (detail : String)
  | unhandled (err : String)
deriving DecidableEq

/-- HTTP status code the caller receives for an outcome; an exception
escaping the handler is rendered by the framework as a generic 500. -/
def httpStatusOf : HttpOutcome → Nat
  | .success _ => 200
  | .httpError code _ => code
  | .unhandled _ => 500

/-- `main.py` `diagnose_alert` handler: extracts the alert fields (the
`[0]` indexing happens before the `try` block, so its `IndexError`
escapes the handler), builds the initial state, invokes the compiled
workflow, and returns the last message's content; any exception inside
the `try` block becomes `HTTPException(500, f"Agent diagnostic failed:
{e}")`. -/
def diagnose_alert (llm : Nat → List Message → Message)
    (runTool : ToolCall → String) (fb : String → Except String String)
    (fuel : Nat) (p : AlertPayload) : HttpOutcome :=
  match getFirstAlert p with
  | .error e => .unhandled e
  | .ok a =>
      let alert_info_for_agent := mkAlertInfo a
      match runDiagnostic llm runTool fb fuel (initialState alert_info_for_agent) with
      | .error e => .httpError 500 ("Agent diagnostic failed: " ++ e)
      | .ok (final_state, _) => .success (lastMessageContent final_state.messages)

/-- Python exception kinds the adapters raise or catch:
`ValueError`, `requests.exceptions.RequestException`, anything else. -/
inductive PyErr where
  | valueError (msg : String)
  | requestException (msg : String)
  | other (msg : String)
deriving DecidableEq

/-- `f"{e}"` on a caught exception. -/
def pyErrMsg : PyErr → String
  | .valueError m => m
  | .requestException m => m
  | .other m => m

/-- Outcome of the single `requests.get(...)` + `raise_for_status()` +
`.json()` sequence an adapter performs: `exc` is a
`requests.exceptions.RequestException` (service unreachable, timeout, or
an HTTP error status raised by `raise_for_status`), `ok` the parsed JSON
body. -/
inductive NetResult (α : Type) where
  | exc (msg : String)
  | ok (a : α)
deriving DecidableEq

/-- One series of a Prometheus `query_range` response: its `metric`
label dictionary and its values (each value already rendered as text —
Python's `f"{float(v[1]):.2f}"` floating-point formatting is abstracted
as the given text). -/
structure PromSeries where
  metric : List (String × String)
  values : List String
deriving DecidableEq

/-- Parsed Prometheus response body: `data["status"]` and
`data["data"]["result"]`. -/
structure PromResp where
  status : String
  result : List PromSeries
deriving DecidableEq

/-- `mlops_tools.py` `PrometheusQuery`, body of the `try` block:
validation first (a `ValueError` before any network call), then the
network request, then formatting. -/
def PrometheusQueryBody (_query : String) (time_range_minutes step_seconds : Int)
    (_target_service : Option String) (net : NetResult PromResp) :
    Except PyErr String :=
  if time_range_minutes ≤ 0 then
    .error (.valueError "time_range_minutes must be positive.")
  else if step_seconds ≤ 0 then
    .error (.valueError "step_seconds must be positive.")
  else
    match net with
    | .exc m => .error (.requestException m)
    | .ok data =>
        if data.status == "success" && !data.result.isEmpty then
          let formatted_results := data.result.map (fun r =>
            let metric_labels := String.intercalate ", "
              (r.metric.map (fun kv => kv.1 ++ "=\x27" ++ kv.2 ++ "\x27"))
            "\x7b " ++ metric_labels ++ " \x7d values: " ++
              String.intercalate ", " r.values)
          .ok ("Prometheus query results:\n" ++
            String.intercalate "\n" formatted_results)
        else
          .ok "Prometheus query: No data found for the given query and time range."

/-- `mlops_tools.py` `PrometheusQuery` with its `except` clauses: a
`RequestException` becomes `f"Failed to query Prometheus: {e}"`, any
other exception `f"An unexpected error occurred: {e}"` — the adapter
always returns a string.  (`tool_services/prometheus_tool/tool.py`
`PrometheusQueryTool` is the same logic.) -/
def PrometheusQuery (query : String) (time_range_minutes step_seconds : Int)
    (target_service : Option String) (net : NetResult PromResp) : String :=
  match PrometheusQueryBody query time_range_minutes step_seconds target_service net with
  | .ok s => s
  | .error (.requestException m) => "Failed to query Prometheus: " ++ m
  | .error e => "An unexpected error occurred: " ++ pyErrMsg e

/-- One stream of a Loki `query_range` response: `stream["stream"]`
(printed label dictionary, abstracted as text) and `stream["values"]` as
(timestamp, line) pairs. -/
structure LokiStream where
  stream : String
  values : List (String × String)
deriving DecidableEq

/-- Parsed Loki response body. -/
structure LokiResp where
  status : String
  result : List LokiStream
deriving DecidableEq

/-- `mlops_tools.py` `LokiLogSearch`: the silent clamp
`if limit <= 0 or limit > 100: limit = 10`. -/
def effectiveLimit (limit : Int) : Int :=
  if limit ≤ 0 ∨ limit > 100 then 10 else limit

/-- `f"{entry[0]} {stream[ stream ]} {entry[1]}"` over every stream, in
order: the `formatted_logs` list. -/
def lokiFormattedLogs (data : LokiResp) : List String :=
  (data.result.map (fun s =>
    s.values.map (fun e => e.1 ++ " " ++ s.stream ++ " " ++ e.2))).flatten

/-- `mlops_tools.py` `LokiLogSearch`, body of the `try` block. -/
def LokiLogSearchBody (_query : String) (time_range_minutes limit : Int)
    (_target_service : Option String) (net : NetResult LokiResp) :
    Except PyErr String :=
  if time_range_minutes ≤ 0 then
    .error (.valueError "time_range_minutes must be positive.")
  else
    let limit := effectiveLimit limit
    match net with
    | .exc m => .error (.requestException m)
    | .ok data =>
        if data.status == "success" && !data.result.isEmpty then
          .ok ("Loki log search results:\n" ++
            String.intercalate "\n" ((lokiFormattedLogs data).take limit.toNat))
        else
          .ok "Loki log search: No logs found for the given query and time range."

/-- `mlops_tools.py` `LokiLogSearch` with its `except` clauses — always
returns a string.  (`tool_services/loki_tool/tool.py` `LokiLogSearchTool`
is the same logic.) -/
def LokiLogSearch (query : String) (time_range_minutes limit : Int)
    (target_service : Option String) (net : NetResult LokiResp) : String :=
  match LokiLogSearchBody query time_range_minutes limit target_service net with
  | .ok s => s
  | .error (.requestException m) => "Failed to query Loki: " ++ m
  | .error e => "An unexpected error occurred: " ++ pyErrMsg e

/-- `GRAFANA_URL = os.getenv("GRAFANA_URL", "http://grafana:3000")`. -/
def GRAFANA_URL : String := "http://grafana:3000"

/-- `urllib.parse.urlencode` on the ordered parameter dictionary
(percent-encoding of the values is abstracted; the values used here are
digits and plain service names). -/
def urlencode (params : List (String × String)) : String :=
  String.intercalate "&" (params.map (fun kv => kv.1 ++ "=" ++ kv.2))

/-- The Grafana link construction shared by both adapter variants:
`to = now_ms`, `from = to - minutes*60*1000`, base
`{GRAFANA_URL}/d/{uid}`, parameters `from`, `to`, `orgId=1` and, when
`service_filter` is truthy, `var-service`. -/
def grafanaLinkUrl (dashboard_uid : String) (time_range_minutes : Int)
    (service_filter : Option String) (now_ms : Int) : String :=
  let to_time := now_ms
  let from_time := to_time - time_range_minutes * 60 * 1000
  let base_url := GRAFANA_URL ++ "/d/" ++ dashboard_uid
  let params := [("from", toString from_time), ("to", toString to_time),
    ("orgId", "1")] ++
    (match service_filter with
      | some s => if s = "" then [] else [("var-service", s)]
      | none => [])
  base_url ++ "?" ++ urlencode params

/-- `mlops_tools.py` `GrafanaDashboardLink`, body of the `try` block:
validation, then pure URL construction (no network call at all). -/
def GrafanaDashboardLinkBody (dashboard_uid : String)
    (time_range_minutes : Int) (service_filter : Option String)
    (now_ms : Int) : Except PyErr String :=
  if time_range_minutes ≤ 0 then
    .error (.valueError "time_range_minutes must be positive.")
  else
    .ok ("Grafana Dashboard Link: " ++
      grafanaLinkUrl dashboard_uid time_range_minutes service_filter now_ms)

/-- `mlops_tools.py` `GrafanaDashboardLink` with its `except` clauses:
only a `RequestException` would take the "Input validation error" branch;
the `ValueError` from the time-range check is not one, so it lands in the
generic `except Exception` branch — the adapter still returns a
string. -/
def GrafanaDashboardLink (dashboard_uid : String) (time_range_minutes : Int)
    (service_filter : Option String) (now_ms : Int) : String :=
  match GrafanaDashboardLinkBody dashboard_uid time_range_minutes service_filter now_ms with
  | .ok s => s
  | .error (.requestException m) =>
      "Input validation error for GrafanaDashboardLink: " ++ m
  | .error e => "An unexpected error occurred: " ++ pyErrMsg e

/-- `tool_services/grafana_tool/tool.py` `GrafanaDashboardLinkTool`:
same construction, but its `except ValueError` / `except Exception`
clauses re-raise, so every failure propagates to the caller as an
exception. -/
def GrafanaDashboardLinkTool (dashboard_uid : String)
    (time_range_minutes : Int) (service_filter : Option String)
    (now_ms : Int) : Except PyErr String :=
  if GRAFANA_URL = "" then
    .error (.valueError "GRAFANA_URL environment variable is not set.")
  else if time_range_minutes ≤ 0 then
    .error (.valueError "time_range_minutes must be positive.")
  else
    .ok ("Grafana Dashboard Link: " ++
      grafanaLinkUrl dashboard_uid time_range_minutes service_filter now_ms)

/-! Concrete backend behaviours and fixtures used to instantiate the
theorems on explicit inputs. -/

/-- A concrete capability request. -/
def demoToolCall : ToolCall :=
  { name := "PrometheusQuery",
    args := [("query", "up"), ("time_range_minutes", "5")] }

/-- Backend behaviour that requests a tool on the first `k` reasoning
invocations and answers in plain text from invocation `k` on. -/
def demoLLMupto (k : Nat) : Nat → List Message → Message := fun i _ =>
  if i < k then Message.ai "calling a tool" [demoToolCall]
  else Message.ai "direct diagnosis" []

/-- Backend behaviour that requests a tool on every invocation. -/
def alwaysToolLLM : Nat → List Message → Message := fun _ _ =>
  Message.ai "calling a tool" [demoToolCall]

/-- Backend behaviour that always answers in plain text with no
capability request. -/
def demoPlainLLM : Nat → List Message → Message := fun _ _ =>
  Message.ai "no tools needed" []

/-- Adapter outcome used for dispatched tool calls. -/
def demoTool : ToolCall → String := fun _ =>
  "Prometheus query: No data found for the given query and time range."

/-- Finalizer backend that succeeds with a fixed reply. -/
def demoBackend : String → Except String String := fun _ =>
  Except.ok "demo diagnosis"

/-- Finalizer backend that fails (the backend is unreachable). -/
def failBackend (e : String) : String → Except String String := fun _ =>
  Except.error e

/-- A state whose `final_result` is already set. -/
def stFinalized : AgentState :=
  { messages := [Message.ai "old diagnosis" []],
    alert_info := "alert text",
    alert_severity := "unknown",
    prometheus_data := some "",
    loki_logs := some "",
    grafana_link := some "",
    final_result := some "old diagnosis" }

/-- The state `finalize_diagnosis_node` produces from `stFinalized` with
the `demoBackend` reply. -/
def stFinalizedAgain : AgentState :=
  { stFinalized with
      messages := add_messages stFinalized.messages
        (stFinalized.messages ++ [Message.ai "demo diagnosis" []]),
      final_result := some "demo diagnosis" }

/-- A payload whose `"alerts"` key holds an empty list. -/
def payloadEmptyAlerts : AlertPayload := { alerts := some [] }

/-- A payload with one alert that has no labels and no annotations. -/
def payloadNoLabels : AlertPayload :=
  { alerts := some [{ labels := none, annots := none }] }

/-- A fully-populated alert. -/
def alertEx : Alert :=
  { labels := some [("alertname", "HighRMSE"), ("service", "news-classifier-api")],
    annots := some [("summary", "rmse above threshold")] }

/-- A payload carrying `alertEx`. -/
def payloadEx : AlertPayload := { alerts := some [alertEx] }

/-! Helper lemmas. -/

theorem getLast?_append_single (l : List Message) (a : Message) :
    (l ++ [a]).getLast? = some a := by
  simp

theorem route_agent_decide_append (msgs : List Message) (m : Message) :
    route_agent_decide (msgs ++ [m]) =
      match m with
      | .ai _ tcs => if tcs.isEmpty then "finalize_diagnosis" else "tool_executor"
      | _ => "finalize_diagnosis" := by
  unfold route_agent_decide
  rw [getLast?_append_single]
  cases m <;> rfl

theorem llm_agent_node_messages (llm : Nat → List Message → Message)
    (idx : Nat) (st : AgentState) :
    (llm_agent_node llm idx st).messages =
      st.messages ++ [llm idx (Message.system system_message_content :: st.messages)] :=
  rfl

theorem finalize_ok_final_isSome (fb : String → Except String String)
    (st : AgentState) (p : AgentState × Nat)
    (h : finalize_diagnosis_node fb st = Except.ok p) :
    p.1.final_result.isSome = true := by
  unfold finalize_diagnosis_node at h
  split at h
  · exact absurd h (by simp)
  · cases h
    rfl

theorem run_ok_final_isSome (llm : Nat → List Message → Message)
    (runTool : ToolCall → String) (fb : String → Except String String) :
    ∀ (fuel : Nat) (st : AgentState) (t : Nat) (p : AgentState × Nat),
      runFromAgent llm runTool fb fuel st t = Except.ok p →
      p.1.final_result.isSome = true := by
  intro fuel
  induction fuel with
  | zero =>
      intro st t p h
      simp [runFromAgent] at h
  | succ f ih =>
      intro st t p h
      rw [runFromAgent] at h
      by_cases hr :
          route_agent_decide (llm_agent_node llm t st).messages = "tool_executor"
      · rw [if_pos hr] at h
        exact ih _ _ _ h
      · rw [if_neg hr] at h
        revert h
        cases hf : finalize_diagnosis_node fb (llm_agent_node llm t st) with
        | error e => intro h; exact absurd h (by simp)
        | ok q =>
            intro h
            obtain ⟨st2, n⟩ := q
            cases h
            exact finalize_ok_final_isSome fb _ (st2, n) hf

theorem run_demoLLMupto (k : Nat) :
    ∀ (fuel t : Nat) (st : AgentState), t ≤ k → k - t < fuel →
      (runFromAgent (demoLLMupto k) demoTool demoBackend fuel st t).map Prod.snd =
        Except.ok (k + 1) := by
  intro fuel
  induction fuel with
  | zero => intro t st h1 h2; omega
  | succ f ih =>
      intro t st h1 h2
      rw [runFromAgent]
      by_cases hlt : t < k
      · have hresp :
            demoLLMupto k t (Message.system system_message_content :: st.messages) =
              Message.ai "calling a tool" [demoToolCall] := by
          simp [demoLLMupto, hlt]
        have hroute :
            route_agent_decide (llm_agent_node (demoLLMupto k) t st).messages =
              "tool_executor" := by
          rw [llm_agent_node_messages, hresp, route_agent_decide_append]
          rfl
        rw [if_pos hroute]
        exact ih (t + 1) _ (by omega) (by omega)
      · have ht : t = k := by omega
        subst ht
        have hresp :
            demoLLMupto t t (Message.system system_message_content :: st.messages) =
              Message.ai "direct diagnosis" [] := by
          simp [demoLLMupto]
        have hroute :
            route_agent_decide (llm_agent_node (demoLLMupto t) t st).messages =
              "finalize_diagnosis" := by
          rw [llm_agent_node_messages, hresp, route_agent_decide_append]
          rfl
        rw [if_neg (by rw [hroute]; decide)]
        rfl

theorem run_alwaysTool (runTool : ToolCall → String)
    (fb : String → Except String String) :
    ∀ (fuel : Nat) (st : AgentState) (t : Nat),
      runFromAgent alwaysToolLLM runTool fb fuel st t =
        Except.error "GraphRecursionError" := by
  intro fuel
  induction fuel with
  | zero => intro st t; rfl
  | succ f ih =>
      intro st t
      rw [runFromAgent]
      have hroute :
          route_agent_decide (llm_agent_node alwaysToolLLM t st).messages =
            "tool_executor" := by
        rw [llm_agent_node_messages]
        rw [show alwaysToolLLM t (Message.system system_message_content :: st.messages) =
              Message.ai "calling a tool" [demoToolCall] from rfl]
        rw [route_agent_decide_append]
        rfl
      rw [if_pos hroute]
      exact ih _ _

/-! Claim theorems. -/

/-- C1 counterexample: with a reasoning backend that requests a
capability on each of its first six invocations and answers plainly on
the seventh, the deployed workflow reaches the Finalizer with 7 reasoning
invocations performed and still succeeds — so the claimed
`turn_count <= MAX_TURNS` (5) bound at Finalizer entry is false: the
compiled `diagnostic_workflow` contains no turn budget. -/
theorem deployed_loop_exceeds_five_turns_cex :
    (runFromAgent (demoLLMupto 6) demoTool demoBackend 20
        (initialState "alert text") 0).map Prod.snd = Except.ok 7 ∧
    ¬(7 ≤ 5) := by
  constructor
  · simpa using run_demoLLMupto 6 20 0 (initialState "alert text")
      (by omega) (by omega)
  · omega

/-- C1 (amended): the deployed workflow enforces no turn budget.  Every
run that reaches the Finalizer yields a set `final_result`; for every
`k` there is a backend behaviour under which the Finalizer is entered
only after `k + 1` reasoning invocations (so no fixed bound such as
MAX_TURNS = 5 holds); and under a backend that always requests a
capability the run never reaches the Finalizer — the framework recursion
limit aborts it with `GraphRecursionError` instead of forcing a
finalization. -/
theorem orchestrator_no_turn_budget :
    (∀ (llm : Nat → List Message → Message) (runTool : ToolCall → String)
        (fb : String → Except String String) (fuel : Nat) (st : AgentState)
        (t : Nat),
        (runFromAgent llm runTool fb fuel st t).map
            (fun p => p.1.final_result.isSome) ≠ Except.ok false) ∧
    (∀ k : Nat,
        (runFromAgent (demoLLMupto k) demoTool demoBackend (k + 1)
            (initialState "alert text") 0).map Prod.snd = Except.ok (k + 1)) ∧
    (∀ (fuel : Nat) (st : AgentState) (t : Nat),
        runFromAgent alwaysToolLLM demoTool demoBackend fuel st t =
          Except.error "GraphRecursionError") := by
  refine ⟨?_, ?_, ?_⟩
  · intro llm runTool fb fuel st t h
    cases hr : runFromAgent llm runTool fb fuel st t with
    | error e => rw [hr] at h; exact absurd h (by simp [Except.map])
    | ok p =>
        rw [hr] at h
        have ht := run_ok_final_isSome llm runTool fb fuel st t p hr
        simp only [Except.map, ht] at h
        exact absurd h (by simp)
  · intro k
    exact run_demoLLMupto k (k + 1) 0 (initialState "alert text")
      (by omega) (by omega)
  · intro fuel st t
    exact run_alwaysTool demoTool demoBackend fuel st t

/-- C1 witness: the amended theorem applied at concrete inputs — a
backend that dispatches three times reaches the Finalizer after four
reasoning invocations. -/
theorem orchestrator_no_turn_budget_witness :
    (runFromAgent (demoLLMupto 3) demoTool demoBackend 4
        (initialState "alert text") 0).map Prod.snd = Except.ok 4 := by
  simpa using orchestrator_no_turn_budget.2.1 3

/-- C2: `route_agent_decide` returns `"tool_executor"` (dispatch) exactly
when the latest conversation entry is an assistant message carrying a
non-empty `tool_calls` list, returns `"finalize_diagnosis"` in every
other case, and is a pure deterministic function of the latest entry
alone. -/
theorem routing_pure_dispatch_iff (messages : List Message) :
    (route_agent_decide messages = "tool_executor" ↔
      ∃ c tcs, messages.getLast? = some (Message.ai c tcs) ∧ tcs ≠ []) ∧
    (route_agent_decide messages = "tool_executor" ∨
      route_agent_decide messages = "finalize_diagnosis") ∧
    (∀ messages2 : List Message, messages.getLast? = messages2.getLast? →
      route_agent_decide messages = route_agent_decide messages2) := by
  refine ⟨⟨?_, ?_⟩, ?_, ?_⟩
  · intro h
    unfold route_agent_decide at h
    revert h
    cases hl : messages.getLast? with
    | none =>
        intro h
        exact absurd (h : "finalize_diagnosis" = "tool_executor") (by decide)
    | some m =>
        cases m with
        | ai c tcs =>
            intro h
            have h' : (if tcs.isEmpty = true then "finalize_diagnosis"
                else "tool_executor") = "tool_executor" := h
            refine ⟨c, tcs, rfl, ?_⟩
            intro hnil
            subst hnil
            exact absurd (h' : "finalize_diagnosis" = "tool_executor") (by decide)
        | system c =>
            intro h
            exact ((by decide : "finalize_diagnosis" ≠ "tool_executor") h).elim
        | human c =>
            intro h
            exact ((by decide : "finalize_diagnosis" ≠ "tool_executor") h).elim
        | tool c =>
            intro h
            exact ((by decide : "finalize_diagnosis" ≠ "tool_executor") h).elim
  · rintro ⟨c, tcs, hl, hne⟩
    unfold route_agent_decide
    rw [hl]
    show (if tcs.isEmpty = true then "finalize_diagnosis" else "tool_executor") =
      "tool_executor"
    rw [if_neg (by simpa using hne)]
  · unfold route_agent_decide
    cases messages.getLast? with
    | none => right; rfl
    | some m =>
        cases m with
        | ai c tcs =>
            by_cases he : tcs.isEmpty
            · right; simp [he]
            · left; simp [he]
        | system c => right; rfl
        | human c => right; rfl
        | tool c => right; rfl
  · intro m2 h
    unfold route_agent_decide
    rw [h]

/-- C2 witness: the routing function applied at concrete inputs — it
depends only on the latest entry, and a concrete assistant entry with a
capability request routes to dispatch. -/
theorem routing_pure_dispatch_iff_witness :
    route_agent_decide [Message.human "a", Message.human "b"] =
      route_agent_decide [Message.human "b"] ∧
    route_agent_decide [Message.ai "x" [demoToolCall]] = "tool_executor" := by
  constructor
  · exact (routing_pure_dispatch_iff [Message.human "a", Message.human "b"]).2.2
      [Message.human "b"] (by decide)
  · exact (routing_pure_dispatch_iff [Message.ai "x" [demoToolCall]]).1.mpr
      ⟨"x", [demoToolCall], by decide, by decide⟩

/-- C3 counterexample: `finalize_diagnosis_node` applied to a state whose
`final_result` is already set performs another backend call and
overwrites the result — the new `final_result` differs from the stored
one, and with an unavailable backend the node fails instead of returning
the stored result, which shows the backend is re-invoked. -/
theorem finalize_not_idempotent_cex :
    finalize_diagnosis_node demoBackend stFinalized =
      Except.ok (stFinalizedAgain, 1) ∧
    stFinalizedAgain.final_result ≠ stFinalized.final_result ∧
    finalize_diagnosis_node (failBackend "backend down") stFinalized =
      Except.error "backend down" := by
  exact ⟨rfl, by decide, rfl⟩

/-- C3 (amended): `finalize_diagnosis_node` is not idempotent — on every
invocation, including on an already-finalized state, it performs exactly
one reasoning-backend call and sets `final_result` to that call's reply
(overwriting any previous value); if the backend fails the node fails. -/
theorem finalize_unconditional_backend_call :
    (∀ (st : AgentState) (m : String),
        ∃ st2, finalize_diagnosis_node (fun _ => Except.ok m) st =
            Except.ok (st2, 1) ∧ st2.final_result = some m) ∧
    (∀ (st : AgentState) (e : String),
        finalize_diagnosis_node (failBackend e) st = Except.error e) := by
  exact ⟨fun st m => ⟨_, rfl, rfl⟩, fun st e => rfl⟩

/-- C4 counterexample: when the Finalizer's backend call fails, the
caller does not receive a fixed "diagnosis unavailable" message — the
failure propagates out of `finalize_diagnosis_node`, the endpoint handler
turns it into `HTTPException(500, "Agent diagnostic failed: ...")`, and
the caller sees an error outcome, not a successful response. -/
theorem finalizer_failure_reaches_caller_cex :
    diagnose_alert demoPlainLLM demoTool (failBackend "backend down") 10 payloadEx =
      HttpOutcome.httpError 500 ("Agent diagnostic failed: " ++ "backend down") ∧
    httpStatusOf (diagnose_alert demoPlainLLM demoTool (failBackend "backend down")
        10 payloadEx) = 500 := by
  exact ⟨rfl, rfl⟩

/-- C4 (amended): the Finalizer has no failure fallback.  A backend
failure propagates out of `finalize_diagnosis_node` unchanged; the
`/diagnose_alert` handler catches it and returns
`HTTPException(500, "Agent diagnostic failed: ...")` to the caller — the
caller does see the failure.  When the backend succeeds the Finalizer
always produces a response, including on a fresh state with zero
gathered observations. -/
theorem finalizer_failure_maps_to_500 :
    (∀ (st : AgentState) (e : String),
        finalize_diagnosis_node (failBackend e) st = Except.error e) ∧
    (∀ (llm : Nat → List Message → Message) (runTool : ToolCall → String)
        (fb : String → Except String String) (fuel : Nat) (p : AlertPayload)
        (a : Alert) (e : String),
        getFirstAlert p = Except.ok a →
        runDiagnostic llm runTool fb fuel (initialState (mkAlertInfo a)) =
          Except.error e →
        diagnose_alert llm runTool fb fuel p =
          HttpOutcome.httpError 500 ("Agent diagnostic failed: " ++ e)) ∧
    (∀ (info m : String),
        ∃ st2, finalize_diagnosis_node (fun _ => Except.ok m) (initialState info) =
            Except.ok (st2, 1) ∧ st2.final_result = some m) := by
  refine ⟨fun st e => rfl, ?_, fun info m => ⟨_, rfl, rfl⟩⟩
  intro llm runTool fb fuel p a e h1 h2
  unfold diagnose_alert
  simp only [h1, h2]

/-- C4 witness: the amended theorem applied at concrete inputs — a run
whose Finalizer backend fails yields the 500 outcome. -/
theorem finalizer_failure_maps_to_500_witness :
    diagnose_alert demoPlainLLM demoTool (failBackend "llm down") 10 payloadNoLabels =
      HttpOutcome.httpError 500 ("Agent diagnostic failed: " ++ "llm down") :=
  finalizer_failure_maps_to_500.2.1 demoPlainLLM demoTool (failBackend "llm down")
    10 payloadNoLabels { labels := none, annots := none } "llm down" rfl rfl

/-- C5: when the backing service of a network adapter is unreachable,
times out, or returns an error status (all surfaced by `requests` as a
`RequestException`), `PrometheusQuery` and `LokiLogSearch` catch it and
return a human-readable failure string — the adapter's value is a plain
string, so no exception leaves the dispatcher and the run continues. -/
theorem adapter_network_failure_is_text (q : String) (tr ss lim : Int)
    (ts : Option String) (m : String) (htr : 0 < tr) (hss : 0 < ss) :
    PrometheusQuery q tr ss ts (NetResult.exc m) =
      "Failed to query Prometheus: " ++ m ∧
    LokiLogSearch q tr lim ts (NetResult.exc m) =
      "Failed to query Loki: " ++ m := by
  constructor
  · unfold PrometheusQuery PrometheusQueryBody
    rw [if_neg (by omega), if_neg (by omega)]
  · unfold LokiLogSearch LokiLogSearchBody
    rw [if_neg (by omega)]

/-- C5 witness: the theorem applied at a concrete query with a concrete
connection failure. -/
theorem adapter_network_failure_is_text_witness :
    PrometheusQuery "up" 5 30 none (NetResult.exc "connection refused") =
      "Failed to query Prometheus: " ++ "connection refused" ∧
    LokiLogSearch "up" 5 10 none (NetResult.exc "connection refused") =
      "Failed to query Loki: " ++ "connection refused" :=
  adapter_network_failure_is_text "up" 5 30 10 none "connection refused"
    (by omega) (by omega)

/-- C6 counterexample: `time_range_minutes = 0` supplied to the grafana
tool-service adapter `GrafanaDashboardLinkTool` does not produce an
observation text — the adapter re-raises the `ValueError`, so an
exception escapes the adapter, contrary to the claim that every adapter
turns this rejection into observation text. -/
theorem grafana_tool_validation_escapes_cex :
    GrafanaDashboardLinkTool "news_classifier_health" 0 none 1700000000000 =
      Except.error (PyErr.valueError "time_range_minutes must be positive.") := by
  rfl

/-- C6 (amended): the three in-process adapters (`PrometheusQuery`,
`LokiLogSearch`, `GrafanaDashboardLink`) reject `time_range_minutes = 0`
before consulting the network (the result is the same for every network
outcome) and return a textual rejection, so the run continues; the
standalone grafana tool-service adapter `GrafanaDashboardLinkTool`
instead re-raises the validation error as an exception (its HTTP endpoint
maps it to a 400 response, not an observation). -/
theorem time_range_zero_rejected (q uid : String) (ss lim : Int)
    (ts sf : Option String) (net : NetResult PromResp) (netl : NetResult LokiResp)
    (now : Int) :
    PrometheusQuery q 0 ss ts net =
      "An unexpected error occurred: time_range_minutes must be positive." ∧
    LokiLogSearch q 0 lim ts netl =
      "An unexpected error occurred: time_range_minutes must be positive." ∧
    GrafanaDashboardLink uid 0 sf now =
      "An unexpected error occurred: time_range_minutes must be positive." ∧
    GrafanaDashboardLinkTool uid 0 sf now =
      Except.error (PyErr.valueError "time_range_minutes must be positive.") := by
  exact ⟨rfl, rfl, rfl, rfl⟩

/-- C7: every node of the workflow only appends to the conversation
history — after `llm_agent_node`, `tool_executor` or a successful
`finalize_diagnosis_node`, the previous message sequence is a prefix of
the new one (no entry is removed, reordered or mutated). -/
theorem history_append_only :
    (∀ (llm : Nat → List Message → Message) (idx : Nat) (st : AgentState),
        ∃ tail, (llm_agent_node llm idx st).messages = st.messages ++ tail) ∧
    (∀ (runTool : ToolCall → String) (st : AgentState),
        ∃ tail, (tool_executor runTool st).messages = st.messages ++ tail) ∧
    (∀ (fb : String → Except String String) (st st2 : AgentState) (n : Nat),
        finalize_diagnosis_node fb st = Except.ok (st2, n) →
        ∃ tail, st2.messages = st.messages ++ tail) := by
  refine ⟨fun llm idx st => ⟨_, rfl⟩, ?_, ?_⟩
  · intro runTool st
    unfold tool_executor
    split
    · exact ⟨_, rfl⟩
    · exact ⟨[], (List.append_nil _).symm⟩
  · intro fb st st2 n h
    unfold finalize_diagnosis_node at h
    split at h
    · exact absurd h (by simp)
    · cases h
      exact ⟨_, rfl⟩

/-- C7 witness: the finalizer clause of the theorem applied at a concrete
already-populated state. -/
theorem history_append_only_witness :
    ∃ tail, stFinalizedAgain.messages = stFinalized.messages ++ tail :=
  history_append_only.2.2 demoBackend stFinalized stFinalizedAgain 1 rfl

/-- C8 counterexample: the fresh state built by the `/diagnose_alert`
handler has a history of exactly one entry — a `HumanMessage`
`"Diagnose this alert: ..."` — not the claimed two entries
(system prompt followed by the alert summary). -/
theorem initial_history_single_entry_cex :
    (initialState (mkAlertInfo alertEx)).messages.length = 1 ∧
    (1 : Nat) ≠ 2 ∧
    (initialState (mkAlertInfo alertEx)).messages.head? =
      some (Message.human ("Diagnose this alert: " ++ mkAlertInfo alertEx)) := by
  exact ⟨rfl, by omega, rfl⟩

/-- C8 (amended): each incoming request creates a fresh state whose
history is exactly one user entry `"Diagnose this alert: <alert info>"`
(the system prompt is supplied per reasoning invocation by the prompt
template, not stored in the history), with `final_result = None`; the
state has no turn counter at all. -/
theorem initial_state_shape (info : String) :
    (initialState info).messages =
      [Message.human ("Diagnose this alert: " ++ info)] ∧
    (initialState info).final_result = none ∧
    (initialState info).alert_info = info := by
  exact ⟨rfl, rfl, rfl⟩

/-- C9: in `LokiLogSearch`, a caller-supplied `limit` that is
non-positive or greater than 100 is silently replaced by 10 — the
adapter's output is identical to an explicit `limit = 10` call, with no
error and no mention of the replacement — and the successful output
carries at most the effective limit of log lines. -/
theorem loki_limit_clamped_silently (q : String) (tr lim : Int)
    (ts : Option String) (net : NetResult LokiResp)
    (h : lim ≤ 0 ∨ 100 < lim) :
    LokiLogSearch q tr lim ts net = LokiLogSearch q tr 10 ts net ∧
    effectiveLimit lim = 10 ∧
    ∀ data : LokiResp,
      ((lokiFormattedLogs data).take (effectiveLimit lim).toNat).length ≤
        (effectiveLimit lim).toNat := by
  have he : effectiveLimit lim = 10 := by
    unfold effectiveLimit
    rw [if_pos h]
  refine ⟨?_, he, ?_⟩
  · unfold LokiLogSearch LokiLogSearchBody
    rw [he, show effectiveLimit 10 = 10 from rfl]
  · intro data
    rw [List.length_take]
    exact min_le_left _ _

/-- C9 witness: the theorem applied at a concrete out-of-range limit. -/
theorem loki_limit_clamped_silently_witness :
    LokiLogSearch "q" 5 150 none (NetResult.exc "x") =
      LokiLogSearch "q" 5 10 none (NetResult.exc "x") ∧
    effectiveLimit 150 = 10 := by
  have h := loki_limit_clamped_silently "q" 5 150 none (NetResult.exc "x")
    (by omega)
  exact ⟨h.1, h.2.1⟩

/-- C10: a payload whose `"alerts"` key holds an empty list makes the
first-element access raise `IndexError` before the handler's `try` block,
so the exception escapes the handler and the caller gets the framework's
generic 500 outcome; a payload whose first alert lacks labels and
annotations proceeds with the defaults "Unknown Alert",
"Unknown Service" and "No summary provided." and completes the run. -/
theorem alerts_empty_raises_missing_fields_default :
    (∀ (llm : Nat → List Message → Message) (runTool : ToolCall → String)
        (fb : String → Except String String) (fuel : Nat),
        diagnose_alert llm runTool fb fuel payloadEmptyAlerts =
          HttpOutcome.unhandled "IndexError: list index out of range" ∧
        httpStatusOf (diagnose_alert llm runTool fb fuel payloadEmptyAlerts) =
          500) ∧
    (alertNameOf { labels := none, annots := none } = "Unknown Alert" ∧
      alertServiceOf { labels := none, annots := none } = "Unknown Service" ∧
      alertSummaryOf { labels := none, annots := none } = "No summary provided.") ∧
    diagnose_alert demoPlainLLM demoTool demoBackend 10 payloadNoLabels =
      HttpOutcome.success "demo diagnosis" := by
  exact ⟨fun llm runTool fb fuel => ⟨rfl, rfl⟩, ⟨rfl, rfl, rfl⟩, rfl⟩
